import Mathlib

/-!
A shallow embedding of the NOALBS v2 configuration and supervisor layer
(`src/config.rs`, `src/noalbs.rs`), with theorems checking the specification's
claims about config loading/saving, legacy migration, the stream-server
priority order, and the supervisor's mutation operations.

Rust strings are lists of characters, `u8`/`u16`/`u32`/`u64` values are `Nat`
(none of the embedded operations perform wrapping arithmetic on them), `i32`/
`i64` are `Int`, fallible operations return `Except`/`Option`, and the file
system, locks and async tasks are made explicit: a config file is identified
with its parse, the per-user `State` is passed by value, and `notify_waiters`
and `JoinHandle::abort` are surfaced as data.
-/

namespace NOALBS

/-- Rust `String`, as its list of characters. -/
abbrev Str := List Char

/-- Rust `char::to_ascii_lowercase` (used by `make_ascii_lowercase`): the
ASCII uppercase letters (code points 65–90) move down by 32, everything else
is untouched. -/
def asciiLowerChar (c : Char) : Char :=
  if 65 ≤ c.toNat ∧ c.toNat ≤ 90 then Char.ofNat (c.toNat + 32) else c

/-- Rust `str::make_ascii_lowercase`, as a pure function. It is byte-wise in
the source; bytes of a multi-byte UTF-8 character are ≥ 128, so it acts
exactly character-wise. -/
def make_ascii_lowercase (s : Str) : Str :=
  s.map asciiLowerChar

/-- A string contains no ASCII uppercase letter. -/
def isAsciiLowercased (s : Str) : Prop :=
  ∀ c ∈ s, ¬(65 ≤ c.toNat ∧ c.toNat ≤ 90)

/-- `chat::Permission` (declared in the `chat` module, outside the given
sources); the three variants appear in `src/chat/youtube.rs` and
`src/config.rs`. -/
inductive Permission where
  | Admin
  | Mod
  | Public
deriving DecidableEq

/-- `chat::Command` (declared in the `chat` module, outside the given
sources). Modelled from the spec and the uses in `src/config.rs`: `Switch`,
`Fix` and the catch-all `Unknown` appear there literally; the other variants
are the command names the legacy defaults feed to `Command::from`. The exact
variant set does not decide any claim. -/
inductive Command where
  | Switch
  | Fix
  | Bitrate
  | Refresh
  | Trigger
  | Sourceinfo
  | Obsinfo
  | Unknown (s : Str)
deriving DecidableEq

/-- Modelled from the spec: `chat::Command::from(&str)` is outside the given
sources and the chat command parsing surface is a declared non-goal; the
recognized names are the ones the legacy conversion can produce, everything
else maps to `Unknown` (matching the `Unknown` check in `update_command`). -/
def Command.fromStr (s : Str) : Command :=
  if s = "switch".toList then .Switch
  else if s = "fix".toList then .Fix
  else if s = "bitrate".toList then .Bitrate
  else if s = "refresh".toList then .Refresh
  else if s = "trigger".toList then .Trigger
  else if s = "sourceinfo".toList then .Sourceinfo
  else if s = "obsinfo".toList then .Obsinfo
  else .Unknown s

/-- Modelled from the spec: `chat::ChatLanguage` is outside the given sources
and localization catalogs are a non-goal. `EN` is the default; other parsed
language codes are kept abstract. The choice does not decide any claim. -/
inductive ChatLanguage where
  | EN
  | code (s : Str)
deriving DecidableEq

/-- Modelled from the spec: the `FromStr` parse used by the legacy conversion
(`lang.parse()`); kept total over codes, which is the only determinism any
claim needs. -/
def ChatLanguage.parse (s : Str) : Option ChatLanguage :=
  if s = "en".toList then some .EN else some (.code s)

/-- `switcher::Triggers` (declared in the `switcher` module, outside the given
sources); the four optional `u32` thresholds are fixed by their uses in
`src/config.rs` (the legacy conversion sets all four) and by the spec's data
model. -/
structure Triggers where
  low : Option Nat
  rtt : Option Nat
  offline : Option Nat
  rtt_offline : Option Nat
deriving DecidableEq

/-- Derived `Default` for `Triggers`: all triggers absent (spec: absent field
= trigger disabled). -/
def Triggers.default : Triggers :=
  ⟨none, none, none, none⟩

/-- `switcher::SwitchingScenes`, fields from its construction in
`src/config.rs`. -/
structure SwitchingScenes where
  normal : Str
  low : Str
  offline : Str
deriving DecidableEq

/-- The concrete `stream_servers::Bsl` implementations, with the fields they
are constructed with in `impl From<RtmpOld> for StreamServer`
(`src/config.rs`); the `reqwest::Client` each carries is connection state
with no observable value and is omitted. -/
inductive Bsl where
  | nginx (stats_url application key : Str)
  | nms (stats_url application key : Str) (auth : Option Str)
  | nimble (id stats_url application key : Str)
  | sls (stats_url publisher : Str)
  | belabox (stats_url publisher : Str)
deriving DecidableEq

/-- Modelled from the spec: `depends_on (optional ( name,
back_to_normal_seconds ))` of a stream server entry. -/
structure DependsOn where
  name : Str
  back_to_normal_seconds : Nat
deriving DecidableEq

/-- `stream_servers::StreamServer` (declared outside the given sources);
fields fixed by its construction in `src/config.rs` and the spec's
`StreamServerEntry`. `priority` is an optional signed integer, compared with
the derived `Ord` on `Option` (`None` least). -/
structure StreamServer where
  stream_server : Bsl
  name : Str
  priority : Option Int
  override_scenes : Option SwitchingScenes
  depends_on : Option DependsOn
  enabled : Bool
deriving DecidableEq

/-- The comparator `a.priority.cmp(&b.priority)` of
`Switcher::sort_stream_servers`, as a boolean `≤` on `Option<i32>` with the
derived `Ord` (`None` below every `Some`). -/
def priorityLe (a b : Option Int) : Bool :=
  match a, b with
  | none, _ => true
  | some _, none => false
  | some x, some y => x ≤ y

/-- `MAX_LOW_RETRY` (`src/config.rs`). -/
def MAX_LOW_RETRY : Nat := 5

/-- The `Switcher` section of the config (`src/config.rs`). -/
structure Switcher where
  bitrate_switcher_enabled : Bool
  only_switch_when_streaming : Bool
  instantly_switch_on_recover : Bool
  auto_switch_notification : Bool
  retry_attempts : Nat
  triggers : Triggers
  switching_scenes : SwitchingScenes
  stream_servers : List StreamServer
deriving DecidableEq

/-- `Switcher::sort_stream_servers`. Rust `slice::sort_by` is a stable sort;
a stable sort's output is uniquely determined by the comparator, and
`List.mergeSort` is that stable sort. -/
def Switcher.sort_stream_servers (s : Switcher) : Switcher :=
  { s with stream_servers :=
      s.stream_servers.mergeSort (fun a b => priorityLe a.priority b.priority) }

/-- `Switcher::add_stream_server`: push, then sort. -/
def Switcher.add_stream_server (s : Switcher) (server : StreamServer) : Switcher :=
  Switcher.sort_stream_servers { s with stream_servers := s.stream_servers ++ [server] }

/-- `Switcher::set_bitrate_switcher_enabled`: only sets the flag (the
`notify_waiters` call here is commented out in the source). -/
def Switcher.set_bitrate_switcher_enabled (s : Switcher) (enabled : Bool) : Switcher :=
  { s with bitrate_switcher_enabled := enabled }

/-- `impl Default for Switcher` (`src/config.rs`). -/
def Switcher.default : Switcher where
  bitrate_switcher_enabled := true
  only_switch_when_streaming := true
  instantly_switch_on_recover := true
  auto_switch_notification := true
  retry_attempts := MAX_LOW_RETRY
  triggers := Triggers.default
  switching_scenes := ⟨"live".toList, "low".toList, "offline".toList⟩
  stream_servers := []

/-- OBS profile/collection pair (`src/config.rs`). -/
structure CollectionPair where
  profile : Str
  collection : Str
deriving DecidableEq

/-- `ObsConfig` (`src/config.rs`); the `collections` `HashMap` is an
association list here (its iteration order is never observed). -/
structure ObsConfig where
  host : Str
  password : Option Str
  port : Nat
  collections : Option (List (Str × CollectionPair))
deriving DecidableEq

/-- `SoftwareConnection` (`src/config.rs`). -/
inductive SoftwareConnection where
  | ObsOldConn (c : ObsConfig)
  | Obs (c : ObsConfig)
deriving DecidableEq

/-- `KickConfig` (`src/config.rs`). -/
structure KickConfig where
  channel_id : Option Nat
  chatroom_id : Option Nat
  use_irlproxy : Option Bool
deriving DecidableEq

/-- `ConfigChatPlatform` (`src/config.rs`). -/
inductive ConfigChatPlatform where
  | Twitch
  | Kick (c : KickConfig)
  | Youtube
deriving DecidableEq

/-- `CommandInfo` (`src/config.rs`). The source field `alias` is a Lean
keyword and is called `alias_` here. -/
structure CommandInfo where
  permission : Option Permission
  user_permissions : Option (List Str)
  alias_ : Option (List Str)
deriving DecidableEq

/-- Derived `Default` for `CommandInfo`. -/
def CommandInfo.default : CommandInfo :=
  ⟨none, none, none⟩

/-- The `Chat` section of the config (`src/config.rs`). The source field
`prefix` is a Lean keyword and is called `prefix_str` here; the `commands`
`HashMap` is an association list (no claim observes its iteration order). -/
structure Chat where
  platform : ConfigChatPlatform
  username : Str
  admins : List Str
  language : ChatLanguage
  prefix_str : Str
  enable_public_commands : Bool
  enable_mod_commands : Bool
  enable_auto_stop_stream_on_host_or_raid : Bool
  announce_raid_on_auto_stop : Bool
  commands : Option (List (Command × CommandInfo))
deriving DecidableEq

/-- `impl Default for Chat` (`src/config.rs`). -/
def Chat.default : Chat where
  platform := .Twitch
  username := "715209".toList
  admins := []
  language := .EN
  prefix_str := "!".toList
  enable_public_commands := true
  enable_mod_commands := true
  enable_auto_stop_stream_on_host_or_raid := true
  announce_raid_on_auto_stop := true
  commands := none

/-- `User` (`src/config.rs`). -/
structure User where
  id : Option Int
  name : Str
  password_hash : Option Str
deriving DecidableEq

/-- `OptionalScenes` (`src/config.rs`). -/
structure OptionalScenes where
  starting : Option Str
  ending : Option Str
  privacy : Option Str
  refresh : Option Str
deriving DecidableEq

/-- Derived `Default` for `OptionalScenes`: all absent. -/
def OptionalScenes.default : OptionalScenes :=
  ⟨none, none, none, none⟩

/-- `OptionalOptions` (`src/config.rs`). -/
structure OptionalOptions where
  twitch_transcoding_check : Bool
  twitch_transcoding_retries : Nat
  twitch_transcoding_delay_seconds : Nat
  offline_timeout : Option Nat
  record_while_streaming : Bool
  switch_to_starting_scene_on_stream_start : Bool
  switch_from_starting_scene_to_live_scene : Bool
deriving DecidableEq

/-- `impl Default for OptionalOptions` (`src/config.rs`). -/
def OptionalOptions.default : OptionalOptions where
  twitch_transcoding_check := false
  twitch_transcoding_retries := 5
  twitch_transcoding_delay_seconds := 15
  offline_timeout := none
  record_while_streaming := false
  switch_to_starting_scene_on_stream_start := false
  switch_from_starting_scene_to_live_scene := false

/-- The NOALBS `Config` (`src/config.rs`). -/
structure Config where
  user : User
  switcher : Switcher
  software : SoftwareConnection
  chat : Option Chat
  optional_scenes : OptionalScenes
  optional_options : OptionalOptions
deriving DecidableEq

/-- `error::Error` (declared in the `error` module, outside the given
sources); the variants are the ones `src/config.rs` and `src/noalbs.rs`
construct, plus the spec's error kinds. The wrapped io/serde payloads carry
nothing any claim observes. -/
inductive Error where
  | ConfigFileError
  | Json
  | NoChat
deriving DecidableEq

/-- `ObsOld` of the legacy schema (`src/config.rs`). -/
structure ObsOld where
  ip : Str
  password : Str
  normal_scene : Str
  offline_scene : Str
  low_bitrate_scene : Str
  refresh_scene : Str
  low_bitrate_trigger : Nat
  high_rtt_trigger : Option Nat
  refresh_scene_interval : Nat
  only_switch_when_streaming : Bool
deriving DecidableEq

/-- `impl Default for ObsOld` (`src/config.rs`). -/
def ObsOld.default : ObsOld where
  ip := "localhost".toList
  password := "password".toList
  normal_scene := "live".toList
  offline_scene := "offline".toList
  low_bitrate_scene := "low".toList
  refresh_scene := "refresh".toList
  low_bitrate_trigger := 800
  high_rtt_trigger := some 2500
  refresh_scene_interval := 10
  only_switch_when_streaming := true

/-- `RtmpOld` of the legacy schema (`src/config.rs`). -/
structure RtmpOld where
  server : Str
  stats : Str
  application : Option Str
  key : Option Str
  id : Option Str
  publisher : Option Str
deriving DecidableEq

/-- `TwitchChat` of the legacy schema (`src/config.rs`); the source field
`prefix` is a Lean keyword and is called `prefix_str` here. -/
structure TwitchChat where
  channel : Str
  bot_username : Str
  oauth : Str
  enable : Bool
  prefix_str : Str
  enable_public_commands : Bool
  public_commands : List Str
  enable_mod_commands : Bool
  mod_commands : List Str
  enable_auto_switch_notification : Bool
  enable_auto_stop_stream_on_host_or_raid : Bool
  admin_users : List Str
  alias_ : Option (List (List Str))
deriving DecidableEq

/-- `impl Default for TwitchChat` (`src/config.rs`). -/
def TwitchChat.default : TwitchChat where
  channel := "715209".toList
  bot_username := "715209".toList
  oauth := "oauth:YOUR_OAUTH_HERE".toList
  enable := true
  prefix_str := "!".toList
  enable_public_commands := true
  public_commands := ["bitrate".toList]
  enable_mod_commands := true
  mod_commands := ["refresh".toList, "fix".toList, "trigger".toList,
    "sourceinfo".toList, "obsinfo".toList]
  enable_auto_switch_notification := true
  enable_auto_stop_stream_on_host_or_raid := true
  admin_users := ["715209".toList, "b3ck".toList]
  alias_ := some [["r".toList, "refresh".toList], ["f".toList, "fix".toList],
    ["b".toList, "bitrate".toList]]

/-- `ConfigOld`, the legacy v1 schema (`src/config.rs`). -/
structure ConfigOld where
  obs : ObsOld
  rtmp : RtmpOld
  twitch_chat : TwitchChat
  language : Option Str
deriving DecidableEq

/-- `HashMap::get` on the commands map (association-list model). -/
def mapLookup (m : List (Command × CommandInfo)) (k : Command) : Option CommandInfo :=
  match m with
  | [] => none
  | (k', v) :: rest => if k' = k then some v else mapLookup rest k

/-- `HashMap::contains_key` on the commands map. -/
def mapContains (m : List (Command × CommandInfo)) (k : Command) : Bool :=
  (mapLookup m k).isSome

/-- The `HashMap` entry API: `entry(k).or_insert(v₀)` followed by an in-place
mutation `f` of the entry's value. A fresh entry goes to the back; no claim
observes the map's order. -/
def mapUpdate (m : List (Command × CommandInfo)) (k : Command) (v₀ : CommandInfo)
    (f : CommandInfo → CommandInfo) : List (Command × CommandInfo) :=
  match m with
  | [] => [(k, f v₀)]
  | (k', v) :: rest =>
      if k' = k then (k', f v) :: rest else (k', v) :: mapUpdate rest k v₀ f

/-- `update_command` (`src/config.rs`): resolve the command name, drop
unrecognized names, then set the permission when given and append the alias
when given (creating the alias vector first when absent). -/
def update_command (m : List (Command × CommandInfo)) (command : Str)
    (permission : Option Permission) (al : Option Str) : List (Command × CommandInfo) :=
  match Command.fromStr command with
  | .Unknown _ => m
  | cmd =>
      mapUpdate m cmd CommandInfo.default fun c =>
        let c := if permission.isSome then { c with permission := permission } else c
        match al with
        | none => c
        | some a =>
            let l := match c.alias_ with
              | none => []
              | some l => l
            { c with alias_ := some (l ++ [a]) }

/-- Rust `str::parse::<u16>`: an optional `+` sign, then one or more ASCII
digits, value within the `u16` range. -/
def parseU16 (s : Str) : Option Nat :=
  let digits := match s with
    | '+' :: rest => rest
    | _ => s
  if digits = [] then none
  else if digits.all (fun c => decide (48 ≤ c.toNat ∧ c.toNat ≤ 57)) then
    let n := digits.foldl (fun acc c => acc * 10 + (c.toNat - 48)) 0
    if n < 65536 then some n else none
  else none

/-- `impl From<RtmpOld> for StreamServer` (`src/config.rs`). The source
`unwrap`s missing fields and `panic`s on an unknown server kind; those aborts
are `none` here. -/
def StreamServer.fromRtmpOld (r : RtmpOld) : Option StreamServer :=
  let name := if r.server = "nginx".toList ∨ r.server = "node-media-server".toList
    then "RTMP".toList else "SRT".toList
  if r.server = "nginx".toList then
    match r.application, r.key with
    | some app, some key =>
        some ⟨.nginx r.stats app key, name, some 0, none, none, true⟩
    | _, _ => none
  else if r.server = "node-media-server".toList then
    match r.application, r.key with
    | some app, some key =>
        some ⟨.nms r.stats app key none, name, some 0, none, none, true⟩
    | _, _ => none
  else if r.server = "nimble".toList then
    match r.id, r.application, r.key with
    | some i, some app, some key =>
        some ⟨.nimble i r.stats app key, name, some 0, none, none, true⟩
    | _, _, _ => none
  else if r.server = "srt-live-server".toList then
    match r.publisher with
    | some pub =>
        if decide ("belabox.net".toList <:+: r.stats) then
          some ⟨.belabox r.stats pub, "BELABOX".toList, some 0, none, none, true⟩
        else
          some ⟨.sls r.stats pub, name, some 0, none, none, true⟩
    | none => none
  else none

/-- The alias loop of `impl From<ConfigOld> for Config`: each entry `c`
contributes `update_command(commands, c[1], None, Some(c[0]))`; the indexing
`panic`s on a list shorter than two, which is `none` here. -/
def applyAliases (m : List (Command × CommandInfo)) :
    List (List Str) → Option (List (Command × CommandInfo))
  | [] => some m
  | c :: rest =>
      match getElem? c 0, getElem? c 1 with
      | some a0, some a1 => applyAliases (update_command m a1 none (some a0)) rest
      | _, _ => none

/-- `impl From<ConfigOld> for Config` (`src/config.rs`). `none` is the
conversion aborting: the OBS address has no `:`-separated parseable port, a
stream-server field the chosen kind `unwrap`s is missing, the server kind is
unknown, or an alias entry is shorter than two. The `.env` creation and the
environment-variable writes of the surrounding `File::load` branch touch
neither the config value nor the config file and are not modelled. -/
def Config.fromOld (o : ConfigOld) : Option Config :=
  let parts := List.splitOn ':' o.obs.ip
  let host := parts.headI
  (parts[1]?).bind fun portStr =>
  (parseU16 portStr).bind fun port =>
  let software := SoftwareConnection.Obs ⟨host, some o.obs.password, port, some []⟩
  let sw : Switcher := { Switcher.default with
    only_switch_when_streaming := o.obs.only_switch_when_streaming
    auto_switch_notification := o.twitch_chat.enable_auto_switch_notification
    triggers := ⟨some o.obs.low_bitrate_trigger, o.obs.high_rtt_trigger, none, none⟩
    switching_scenes := ⟨o.obs.normal_scene, o.obs.low_bitrate_scene, o.obs.offline_scene⟩ }
  let chat0 : Chat := { Chat.default with
    platform := .Twitch
    username := o.twitch_chat.channel
    admins := o.twitch_chat.admin_users
    prefix_str := o.twitch_chat.prefix_str
    enable_auto_stop_stream_on_host_or_raid :=
      o.twitch_chat.enable_auto_stop_stream_on_host_or_raid
    commands := some []
    enable_public_commands := o.twitch_chat.enable_public_commands
    enable_mod_commands := o.twitch_chat.enable_mod_commands }
  let cmds : List (Command × CommandInfo) := []
  let cmds := o.twitch_chat.mod_commands.foldl
    (fun m c => update_command m c (some .Mod) none) cmds
  let cmds := o.twitch_chat.public_commands.foldl
    (fun m c => update_command m c (some .Public) none) cmds
  (match o.twitch_chat.alias_ with
    | none => some cmds
    | some al => applyAliases cmds al).bind fun cmds =>
  let cmds := if mapContains cmds .Switch then cmds
    else update_command cmds ("switch".toList) (some .Mod) (some ("ss".toList))
  let cmds := if mapContains cmds .Fix then cmds
    else update_command cmds ("fix".toList) (some .Mod) (some ("f".toList))
  (StreamServer.fromRtmpOld o.rtmp).map fun ss =>
  let lang := match o.language with
    | some l =>
        match ChatLanguage.parse l with
        | some lv => lv
        | none => chat0.language
    | none => chat0.language
  { user := ⟨none, o.twitch_chat.channel, none⟩
    switcher := { sw with stream_servers := sw.stream_servers ++ [ss] }
    software := software
    chat := some { chat0 with commands := some cmds, language := lang }
    optional_scenes := OptionalScenes.default
    optional_options := OptionalOptions.default }

/-- The per-command part of the chat fixups in `File::load`: lowercase every
string of the `user_permissions` vector when there is one. -/
def lowerPerms (i : CommandInfo) : CommandInfo :=
  { i with user_permissions := i.user_permissions.map fun l =>
      l.map make_ascii_lowercase }

/-- The chat fixups at the end of `File::load`: lowercase the username, every
admin, and every string of every command's `user_permissions`. -/
def lowercaseChat (c : Chat) : Chat :=
  { c with
    username := make_ascii_lowercase c.username
    admins := c.admins.map make_ascii_lowercase
    commands := c.commands.map fun m => m.map fun kv => (kv.1, lowerPerms kv.2) }

/-- The in-place fixups `File::load` applies after parsing (and, on the
legacy path, after saving): sort the stream servers, then lowercase the chat
section when present. -/
def normalizeLoaded (c : Config) : Config :=
  let c := { c with switcher := c.switcher.sort_stream_servers }
  match c.chat with
  | none => c
  | some ch => { c with chat := some (lowercaseChat ch) }

/-- A config file's contents, as seen through serde. `File::load` first tries
the current `Config` schema and only on failure the legacy `ConfigOld`
schema, so the contents fall in three disjoint classes: they parse as
`Config`; they do not, but parse as `ConfigOld`; they parse as neither.
serde (de)serialization itself is an external collaborator; the embedding
identifies a file with its parse, so re-parsing saved contents is the
identity. -/
inductive FileContent where
  | newC (c : Config)
  | oldC (o : ConfigOld)
  | bad
deriving DecidableEq

/-- `File::save` (`src/config.rs`): serialize the config over the file. -/
def File.save (c : Config) : FileContent :=
  .newC c

/-- What a successful `File::load` leaves behind: the returned config, the
file contents on disk when it returns, and whether the legacy branch ran. -/
structure LoadOutcome where
  config : Config
  file : FileContent
  converted : Bool
deriving DecidableEq

/-- The result of `File::load`: success, an `error::Error`, or an abort of
the legacy conversion (`unwrap`/`panic!` in the source). The io error of a
missing file is outside the contents model. -/
inductive LoadResult where
  | ok (r : LoadOutcome)
  | err (e : Error)
  | panicked
deriving DecidableEq

/-- `File::load` (`src/config.rs`): parse as `Config`; on failure re-read and
parse as `ConfigOld`, convert and save the conversion before the common
fixups run; on both failing, `Error::Json`. The fixups (`normalizeLoaded`)
apply to the returned config only — on the legacy path the file keeps the
saved, unnormalized conversion. -/
def File.load : FileContent → LoadResult
  | .newC c => .ok ⟨normalizeLoaded c, .newC c, false⟩
  | .oldC o =>
      match Config.fromOld o with
      | some c => .ok ⟨normalizeLoaded c, File.save c, true⟩
      | none => .panicked
  | .bad => .err .Json

/-- `switcher::SwitchType` reason enum; modelled from the spec's
`last_switch_reason` state machine (outside the given sources). -/
inductive SwitchReason where
  | Normal
  | Low
  | Rtt
  | Offline
  | Manual
deriving DecidableEq

/-- Modelled from the spec: `state::SwitcherState` is outside the given
sources; fields follow the spec's SwitcherState data model. The
`switcher_enabled_notifier` is a `tokio::sync::Notify`, an effectful wakeup
with no value state: its `notify_waiters` calls are surfaced as boolean
outputs of the operations that fire them, and the deadlines of
`depends_on_timer` are abstract instants. -/
structure SwitcherState where
  low_retry_count : Nat
  last_scene : Option Str
  last_switch_reason : Option SwitchReason
  depends_on_timer : List (Str × Nat)
deriving DecidableEq

/-- `SwitcherState::default`: counter at zero, nothing recorded. -/
def SwitcherState.default : SwitcherState :=
  ⟨0, none, none, []⟩

/-- The broadcaster handle held in the state; `Noalbs::new` only ever
constructs an OBS connection from the `SoftwareConnection::Obs` config. -/
inductive Connection where
  | obs (conf : ObsConfig)
deriving DecidableEq

/-- Modelled from the spec: `state::BroadcastingSoftwareState` is outside the
given sources; fields follow the spec's data model plus the uses in
`src/noalbs.rs` (`prev_scene`, `connection`). -/
structure BroadcastingSoftwareState where
  current_scene : Str
  prev_scene : Str
  is_streaming : Bool
  is_connected : Bool
  initial_connect_done : Bool
  connection : Option Connection
deriving DecidableEq

/-- `BroadcastingSoftwareState::default`: disconnected, no connection held. -/
def BroadcastingSoftwareState.default : BroadcastingSoftwareState :=
  ⟨[], [], false, false, false, none⟩

/-- `state::State` (outside the given sources): the per-user store, fields
from its construction in `Noalbs::new`. The `Arc<RwLock<_>>` around it is
explicit state passing here. -/
structure State where
  config : Config
  switcher_state : SwitcherState
  broadcasting_software : BroadcastingSoftwareState
deriving DecidableEq

/-- `switcher::TriggerType` (outside the given sources): the `match`es in
`src/noalbs.rs` cover `Low`, `Rtt` and `Offline` with no wildcard arm, so
these are exactly the variants. -/
inductive TriggerType where
  | Low
  | Rtt
  | Offline
deriving DecidableEq

/-- A `tokio::task::JoinHandle<()>`: the only operation the sources perform
on it is `abort`, modelled as a flag. -/
structure JoinHandle where
  aborted : Bool
deriving DecidableEq

/-- The `Noalbs` supervisor (`src/noalbs.rs`). The chat sender and the
`storage : Box<dyn ConfigLogic>` handle are capabilities no embedded claim
observes and are omitted. -/
structure Noalbs where
  state : State
  switcher_handler : Option JoinHandle
deriving DecidableEq

/-- `Noalbs::add_stream_server` (`src/noalbs.rs`): delegate to the config
under the write lock. -/
def Noalbs.add_stream_server (n : Noalbs) (server : StreamServer) : Noalbs :=
  { n with state := { n.state with config := { n.state.config with
      switcher := n.state.config.switcher.add_stream_server server } } }

/-- `Noalbs::start_switcher`: spawn the switcher task and keep its handle. -/
def Noalbs.start_switcher (n : Noalbs) : Noalbs :=
  { n with switcher_handler := some ⟨false⟩ }

/-- `Noalbs::stop` (`src/noalbs.rs`): release the broadcaster connection,
then abort the switcher task when one is held. -/
def Noalbs.stop (n : Noalbs) : Noalbs :=
  { state := { n.state with broadcasting_software :=
      { n.state.broadcasting_software with connection := none } }
    switcher_handler := n.switcher_handler.map fun _ => ⟨true⟩ }

/-- `impl Drop for Noalbs` (`src/noalbs.rs`): abort the switcher task when
one is held — nothing else. -/
def Noalbs.dropped (n : Noalbs) : Noalbs :=
  { n with switcher_handler := n.switcher_handler.map fun _ => ⟨true⟩ }

/-- `Noalbs::contains_alias` (`src/noalbs.rs`). -/
def Noalbs.contains_alias (n : Noalbs) (al : Str) : Except Error Bool :=
  match n.state.config.chat with
  | none => .error .NoChat
  | some chat =>
      match chat.commands with
      | none => .ok false
      | some commands =>
          .ok (commands.any fun kv =>
            match kv.2.alias_ with
            | some aliases => aliases.any fun a => decide (a = al)
            | none => false)

/-- `Noalbs::add_alias` (`src/noalbs.rs`): `get_or_insert` an empty commands
map, `entry(command).or_insert` an info whose alias vector is empty, make
sure the alias vector exists, push. The mutating supervisor operations
return the state next to the `Result`, mirroring the state behind the lock. -/
def Noalbs.add_alias (n : Noalbs) (al : Str) (command : Command) :
    Except Error Unit × Noalbs :=
  match n.state.config.chat with
  | none => (.error .NoChat, n)
  | some chat =>
      let commands := match chat.commands with
        | none => []
        | some m => m
      let commands := mapUpdate commands command ⟨none, none, some []⟩ fun c =>
        let c := if c.alias_ = none then { c with alias_ := some [] } else c
        { c with alias_ := some ((c.alias_.getD []) ++ [al]) }
      (.ok (), { n with state := { n.state with config := { n.state.config with
        chat := some { chat with commands := some commands } } } })

/-- `Vec::swap_remove`: replace the element at `i` with the last element and
pop the vector. -/
def swapRemove (l : List α) (i : Nat) : List α :=
  match l.getLast? with
  | none => l
  | some last => (l.set i last).dropLast

/-- `Noalbs::remove_alias` (`src/noalbs.rs`): find the first command whose
alias vector contains the alias, `swap_remove` it there. The `HashMap`
iteration order behind `find_map` is arbitrary in the source; the
association-list order stands in for it (no claim depends on the choice). -/
def Noalbs.remove_alias (n : Noalbs) (al : Str) : Except Error Bool × Noalbs :=
  match n.state.config.chat with
  | none => (.error .NoChat, n)
  | some chat =>
      match chat.commands with
      | none => (.ok false, n)
      | some commands =>
          match commands.findIdx? (fun kv =>
            match kv.2.alias_ with
            | some aliases => aliases.any fun x => decide (x = al)
            | none => false) with
          | none => (.ok false, n)
          | some i =>
              let kv := commands.getD i (.Unknown [], CommandInfo.default)
              let aliases := kv.2.alias_.getD []
              match aliases.findIdx? (fun v => decide (v = al)) with
              | none => (.ok false, n)
              | some j =>
                  let commands := commands.set i
                    (kv.1, { kv.2 with alias_ := some (swapRemove aliases j) })
                  (.ok true, { n with state := { n.state with config :=
                    { n.state.config with
                      chat := some { chat with commands := some commands } } } })

/-- `Noalbs::get_trigger_by_type` (`src/noalbs.rs`). -/
def Noalbs.get_trigger_by_type (n : Noalbs) (kind : TriggerType) : Option Nat :=
  let triggers := n.state.config.switcher.triggers
  match kind with
  | .Low => triggers.low
  | .Rtt => triggers.rtt
  | .Offline => triggers.offline

/-- `Noalbs::update_trigger` (`src/noalbs.rs`): `0` clears the selected
trigger, anything else stores it; the stored value is returned. -/
def Noalbs.update_trigger (n : Noalbs) (kind : TriggerType) (value : Nat) :
    Option Nat × Noalbs :=
  let real_value := if value = 0 then none else some value
  let triggers := n.state.config.switcher.triggers
  let triggers := match kind with
    | .Low => { triggers with low := real_value }
    | .Rtt => { triggers with rtt := real_value }
    | .Offline => { triggers with offline := real_value }
  (real_value, { n with state := { n.state with config := { n.state.config with
    switcher := { n.state.config.switcher with triggers := triggers } } } })

/-- `Noalbs::get_autostop` (`src/noalbs.rs`). -/
def Noalbs.get_autostop (n : Noalbs) : Except Error Bool :=
  match n.state.config.chat with
  | none => .error .NoChat
  | some chat => .ok chat.enable_auto_stop_stream_on_host_or_raid

/-- `Noalbs::set_autostop` (`src/noalbs.rs`). -/
def Noalbs.set_autostop (n : Noalbs) (enabled : Bool) : Except Error Unit × Noalbs :=
  match n.state.config.chat with
  | none => (.error .NoChat, n)
  | some chat =>
      (.ok (), { n with state := { n.state with config := { n.state.config with
        chat := some { chat with
          enable_auto_stop_stream_on_host_or_raid := enabled } } } })

/-- `Noalbs::get_notify` (`src/noalbs.rs`). -/
def Noalbs.get_notify (n : Noalbs) : Bool :=
  n.state.config.switcher.auto_switch_notification

/-- `Noalbs::set_notify` (`src/noalbs.rs`). -/
def Noalbs.set_notify (n : Noalbs) (enabled : Bool) : Noalbs :=
  { n with state := { n.state with config := { n.state.config with
    switcher := { n.state.config.switcher with
      auto_switch_notification := enabled } } } }

/-- `Noalbs::set_prefix` (`src/noalbs.rs`); named after the renamed `Chat`
field. -/
def Noalbs.set_prefix_str (n : Noalbs) (p : Str) : Except Error Unit × Noalbs :=
  match n.state.config.chat with
  | none => (.error .NoChat, n)
  | some chat =>
      (.ok (), { n with state := { n.state with config := { n.state.config with
        chat := some { chat with prefix_str := p } } } })

/-- `Noalbs::set_bitrate_switcher_state` (`src/noalbs.rs`): set the flag
through the config, then `notify_waiters` on the switcher-enabled notifier
exactly when enabling. The boolean next to the state records whether the
notifier fired. -/
def Noalbs.set_bitrate_switcher_state (n : Noalbs) (enabled : Bool) : Noalbs × Bool :=
  let n' := { n with state := { n.state with config := { n.state.config with
    switcher := n.state.config.switcher.set_bitrate_switcher_enabled enabled } } }
  if enabled then (n', true) else (n', false)

/-! Concrete sample data, used by the witnesses and counterexamples below. -/

/-- A small OBS connection config. -/
def sampleObsConf : ObsConfig :=
  ⟨"localhost".toList, none, 4455, none⟩

/-- A stream server with priority 1. -/
def sServerA : StreamServer :=
  ⟨.nginx "http://stats".toList "live".toList "key".toList,
   "RTMP".toList, some 1, none, none, true⟩

/-- A stream server with priority 0. -/
def sServerB : StreamServer :=
  ⟨.sls "http://sls".toList "pub".toList, "SRT".toList, some 0, none, none, true⟩

/-- A chat section with uppercase names and permissions, to exercise the
load-time lowercasing. -/
def sampleChat : Chat :=
  { Chat.default with
    username := "StreamerA".toList
    admins := ["Mod1".toList]
    commands := some [(.Fix, ⟨some .Mod, some ["VIP".toList], some ["f".toList]⟩)] }

/-- A current-schema config whose stream servers arrive out of priority
order. -/
def sampleConfig : Config :=
  { user := ⟨none, "streamera".toList, none⟩
    switcher := { Switcher.default with stream_servers := [sServerA, sServerB] }
    software := .Obs sampleObsConf
    chat := some sampleChat
    optional_scenes := OptionalScenes.default
    optional_options := OptionalOptions.default }

/-- The outcome of loading `sampleConfig` from a file. -/
def sampleLoaded : LoadOutcome :=
  ⟨normalizeLoaded sampleConfig, .newC sampleConfig, false⟩

/-- A legacy config whose channel name contains uppercase letters. -/
def sampleOld : ConfigOld :=
  { obs := { ObsOld.default with ip := "localhost:4455".toList }
    rtmp := ⟨"srt-live-server".toList, "http://stats".toList, none, none, none,
      some ("pub".toList)⟩
    twitch_chat := { TwitchChat.default with
      channel := "StreamerA".toList
      mod_commands := []
      public_commands := []
      admin_users := []
      alias_ := none }
    language := none }

/-- The conversion of `sampleOld` (its `Config::from` image). -/
def sampleConverted : Config :=
  (Config.fromOld sampleOld).getD sampleConfig

/-- The outcome of the first load of `sampleOld`. -/
def sampleOldLoaded : LoadOutcome :=
  ⟨normalizeLoaded sampleConverted, File.save sampleConverted, true⟩

/-- The chat section after loading `sampleConfig`. -/
def sampleLoadedChat : Chat :=
  lowercaseChat sampleChat

/-- A running supervisor: connection held, switcher task alive. -/
def sampleNoalbs : Noalbs :=
  ⟨⟨sampleConfig, SwitcherState.default,
    { BroadcastingSoftwareState.default with connection := some (.obs sampleObsConf) }⟩,
   some ⟨false⟩⟩

/-- A supervisor whose config has no chat section. -/
def sampleNoChat : Noalbs :=
  ⟨⟨{ sampleConfig with chat := none }, SwitcherState.default,
    BroadcastingSoftwareState.default⟩, none⟩

/-- Ascending priority order: every earlier entry's priority is `≤` every
later entry's, in the derived `Option<i32>` order. -/
def sortedByPriority (l : List StreamServer) : Prop :=
  List.Pairwise (fun a b => priorityLe a.priority b.priority = true) l

/-- Putting the original triggers back; stating that an operation restored
through this equals the original state says the operation changed nothing
outside the triggers. -/
def restoreTriggers (n : Noalbs) (t : Triggers) : Noalbs :=
  { n with state := { n.state with config := { n.state.config with
    switcher := { n.state.config.switcher with triggers := t } } } }

/-! Helper lemmas. -/

/-- `Char.ofNat` of a code point below the surrogate range reads back as
itself. -/
theorem toNat_ofNat_valid (n : Nat) (h : n < 55296) : (Char.ofNat n).toNat = n := by
  have hv : n.isValidChar := Or.inl h
  simp only [Char.ofNat, hv, dif_pos, Char.toNat, Char.ofNatAux]
  simp only [UInt32.toNat, UInt32.ofNat', UInt32.ofNatCore]
  simp [BitVec.toNat_ofNat]

/-- Lowercasing a character never yields an ASCII uppercase letter. -/
theorem asciiLowerChar_not_upper (c : Char) :
    ¬(65 ≤ (asciiLowerChar c).toNat ∧ (asciiLowerChar c).toNat ≤ 90) := by
  unfold asciiLowerChar
  split
  · rename_i h
    have he : (Char.ofNat (c.toNat + 32)).toNat = c.toNat + 32 :=
      toNat_ofNat_valid _ (by omega)
    rw [he]
    omega
  · rename_i h
    exact h

/-- `asciiLowerChar` is idempotent. -/
theorem asciiLowerChar_idem (c : Char) :
    asciiLowerChar (asciiLowerChar c) = asciiLowerChar c := by
  have h := asciiLowerChar_not_upper c
  show (if 65 ≤ (asciiLowerChar c).toNat ∧ (asciiLowerChar c).toNat ≤ 90
    then Char.ofNat ((asciiLowerChar c).toNat + 32) else asciiLowerChar c)
    = asciiLowerChar c
  rw [if_neg h]

/-- A lowercased string has no ASCII uppercase letter left. -/
theorem make_ascii_lowercase_lowered (s : Str) :
    isAsciiLowercased (make_ascii_lowercase s) := by
  intro c hc
  simp only [make_ascii_lowercase, List.mem_map] at hc
  obtain ⟨a, _, rfl⟩ := hc
  exact asciiLowerChar_not_upper a

/-- `make_ascii_lowercase` is idempotent. -/
theorem make_ascii_lowercase_idem (s : Str) :
    make_ascii_lowercase (make_ascii_lowercase s) = make_ascii_lowercase s := by
  unfold make_ascii_lowercase
  induction s with
  | nil => rfl
  | cons c cs ih => simp only [List.map_cons, asciiLowerChar_idem, ih]

/-- Lowercasing a list of strings is idempotent. -/
theorem map_lowercase_idem (l : List Str) :
    (l.map make_ascii_lowercase).map make_ascii_lowercase
      = l.map make_ascii_lowercase := by
  induction l with
  | nil => rfl
  | cons s rest ih => simp only [List.map_cons, make_ascii_lowercase_idem, ih]

/-- `lowerPerms` is idempotent. -/
theorem lowerPerms_idem (i : CommandInfo) : lowerPerms (lowerPerms i) = lowerPerms i := by
  cases h : i.user_permissions with
  | none => simp [lowerPerms, h]
  | some l => simp [lowerPerms, h, map_lowercase_idem, make_ascii_lowercase_idem]

/-- Lowercasing the command entries is idempotent. -/
theorem lowerCmdEntries_idem (m : List (Command × CommandInfo)) :
    ((m.map fun kv => (kv.1, lowerPerms kv.2)).map fun kv => (kv.1, lowerPerms kv.2))
      = m.map fun kv => (kv.1, lowerPerms kv.2) := by
  induction m with
  | nil => rfl
  | cons kv rest ih => simp only [List.map_cons, lowerPerms_idem, ih]

/-- `lowercaseChat` is idempotent. -/
theorem lowercaseChat_idem (ch : Chat) :
    lowercaseChat (lowercaseChat ch) = lowercaseChat ch := by
  unfold lowercaseChat
  cases h : ch.commands with
  | none => simp [h, make_ascii_lowercase_idem, map_lowercase_idem]
  | some m =>
      simp [h, make_ascii_lowercase_idem, map_lowercase_idem, lowerCmdEntries_idem,
        lowerPerms_idem]

/-- Lowercasing an optional chat section is idempotent. -/
theorem chatMap_lower_idem (o : Option Chat) :
    (o.map lowercaseChat).map lowercaseChat = o.map lowercaseChat := by
  cases o <;> simp [lowercaseChat_idem]

/-- The sort comparator is transitive. -/
theorem priorityLe_trans (a b c : Option Int) :
    priorityLe a b = true → priorityLe b c = true → priorityLe a c = true := by
  cases a with
  | none => intro _ _; rfl
  | some x =>
    cases b with
    | none => intro hab _; simp [priorityLe] at hab
    | some y =>
      cases c with
      | none => intro _ hbc; simp [priorityLe] at hbc
      | some z =>
        intro hab hbc
        simp only [priorityLe, decide_eq_true_eq] at *
        omega

/-- The sort comparator is total. -/
theorem priorityLe_total (a b : Option Int) :
    (priorityLe a b || priorityLe b a) = true := by
  cases a with
  | none => rfl
  | some x =>
    cases b with
    | none => rfl
    | some y =>
      simp only [priorityLe, Bool.or_eq_true, decide_eq_true_eq]
      omega

/-- The sort used by `sort_stream_servers` sorts by ascending priority. -/
theorem sortedByPriority_mergeSort (l : List StreamServer) :
    sortedByPriority (l.mergeSort fun a b => priorityLe a.priority b.priority) :=
  @List.sorted_mergeSort StreamServer (fun a b => priorityLe a.priority b.priority)
    (fun _ _ _ hab hbc => priorityLe_trans _ _ _ hab hbc)
    (fun _ _ => priorityLe_total _ _) l

/-- Sorting a list already in ascending priority order leaves it unchanged. -/
theorem mergeSort_of_sortedByPriority (l : List StreamServer) (h : sortedByPriority l) :
    (l.mergeSort fun a b => priorityLe a.priority b.priority) = l :=
  List.mergeSort_of_sorted h

/-- `sort_stream_servers` is idempotent. -/
theorem sort_stream_servers_idem (s : Switcher) :
    s.sort_stream_servers.sort_stream_servers = s.sort_stream_servers := by
  unfold Switcher.sort_stream_servers
  rw [mergeSort_of_sortedByPriority _ (sortedByPriority_mergeSort _)]

/-- `normalizeLoaded`, written with `Option.map`. -/
theorem normalizeLoaded_eq (c : Config) :
    normalizeLoaded c = { c with switcher := c.switcher.sort_stream_servers,
                                 chat := c.chat.map lowercaseChat } := by
  unfold normalizeLoaded
  cases h : c.chat <;> simp [h]

/-- The load-time fixups are idempotent. -/
theorem normalizeLoaded_idem (c : Config) :
    normalizeLoaded (normalizeLoaded c) = normalizeLoaded c := by
  rw [normalizeLoaded_eq c, normalizeLoaded_eq]
  cases hc : c.chat with
  | none => simp [hc, sort_stream_servers_idem]
  | some ch => simp [hc, sort_stream_servers_idem, lowercaseChat_idem]

/-- A successful load always returns a config of the shape `normalizeLoaded c`
for the parsed (or converted) `c`. -/
theorem load_ok_config (f : FileContent) (r : LoadOutcome) (h : File.load f = .ok r) :
    ∃ c : Config, r.config = normalizeLoaded c := by
  cases f with
  | newC c =>
      simp only [File.load] at h
      injection h with h2
      exact ⟨c, by rw [← h2]⟩
  | oldC o =>
      cases hc : Config.fromOld o with
      | none => simp [File.load, hc] at h
      | some c =>
          simp only [File.load, hc] at h
          injection h with h2
          exact ⟨c, by rw [← h2]⟩
  | bad => simp [File.load] at h

/-- Every chat section produced by `lowercaseChat` is fully lowercased. -/
theorem lowercaseChat_lowered (ch0 : Chat) :
    isAsciiLowercased (lowercaseChat ch0).username ∧
    (∀ a ∈ (lowercaseChat ch0).admins, isAsciiLowercased a) ∧
    (∀ kv ∈ (lowercaseChat ch0).commands.getD [], ∀ l,
      kv.2.user_permissions = some l → ∀ u ∈ l, isAsciiLowercased u) := by
  refine ⟨make_ascii_lowercase_lowered _, ?_, ?_⟩
  · intro a ha
    simp only [lowercaseChat, List.mem_map] at ha
    obtain ⟨b, _, rfl⟩ := ha
    exact make_ascii_lowercase_lowered b
  · intro kv hkv l hl u hu
    cases hcm : ch0.commands with
    | none => simp [lowercaseChat, hcm] at hkv
    | some m =>
        simp only [lowercaseChat, hcm, Option.map_some', Option.getD_some,
          List.mem_map] at hkv
        obtain ⟨kv0, _, rfl⟩ := hkv
        simp only [lowerPerms] at hl
        cases hup : kv0.2.user_permissions with
        | none => rw [hup] at hl; simp at hl
        | some ups =>
            rw [hup] at hl
            simp only [Option.map_some'] at hl
            injection hl with hl2
            rw [← hl2] at hu
            rw [List.mem_map] at hu
            obtain ⟨u0, _, rfl⟩ := hu
            exact make_ascii_lowercase_lowered u0

/-! The claims. -/

/-- C1: after every successful `File::load` (legacy conversion included) and
after every `Switcher::add_stream_server`, the `stream_servers` vector is
sorted in ascending order of `priority`. -/
theorem C1_stream_servers_sorted :
    (∀ f r, File.load f = .ok r → sortedByPriority r.config.switcher.stream_servers) ∧
    (∀ (s : Switcher) (server : StreamServer),
      sortedByPriority (s.add_stream_server server).stream_servers) := by
  constructor
  · intro f r h
    obtain ⟨c, hcfg⟩ := load_ok_config f r h
    rw [hcfg, normalizeLoaded_eq]
    exact sortedByPriority_mergeSort _
  · intro s server
    exact sortedByPriority_mergeSort _

/-- Witness for C1: loading a concrete config file whose servers arrive out
of order succeeds and yields a sorted server list. -/
theorem C1_stream_servers_sorted_witness :
    File.load (.newC sampleConfig) = .ok sampleLoaded ∧
    sortedByPriority sampleLoaded.config.switcher.stream_servers :=
  ⟨rfl, C1_stream_servers_sorted.1 (.newC sampleConfig) sampleLoaded rfl⟩

/-- C2: saving the config a successful load returned and loading again
returns that same config, and the reload never takes the legacy branch,
while the first load of a legacy-schema file does — the conversion happens
exactly once, on the first load. -/
theorem C2_save_load_roundtrip :
    (∀ f r, File.load f = .ok r →
      File.load (File.save r.config) = .ok ⟨r.config, File.save r.config, false⟩) ∧
    (∀ o r, File.load (.oldC o) = .ok r → r.converted = true) := by
  constructor
  · intro f r h
    obtain ⟨c, hcfg⟩ := load_ok_config f r h
    rw [hcfg]
    simp only [File.save, File.load, normalizeLoaded_idem]
  · intro o r h
    cases hc : Config.fromOld o with
    | none => simp [File.load, hc] at h
    | some c =>
        simp only [File.load, hc] at h
        injection h with h2
        rw [← h2]

/-- Witness for C2 on a legacy file: the first load converts, the reload of
the saved result returns the same config without converting. -/
theorem C2_save_load_roundtrip_witness :
    File.load (.oldC sampleOld) = .ok sampleOldLoaded ∧
    File.load (File.save sampleOldLoaded.config)
      = .ok ⟨sampleOldLoaded.config, File.save sampleOldLoaded.config, false⟩ ∧
    sampleOldLoaded.converted = true :=
  ⟨rfl, C2_save_load_roundtrip.1 (.oldC sampleOld) sampleOldLoaded rfl,
    C2_save_load_roundtrip.2 sampleOld sampleOldLoaded rfl⟩

/-- C3 counterexample: loading the legacy `sampleOld` (channel name
`StreamerA`) saves the conversion `sampleConverted` to the file but returns a
different config — the post-load fixups lowercase the chat username — so the
claim that load returns the converted config it saved is false here. -/
theorem C3_returns_other_config_than_saved :
    Config.fromOld sampleOld = some sampleConverted ∧
    File.load (.oldC sampleOld)
      = .ok ⟨normalizeLoaded sampleConverted, File.save sampleConverted, true⟩ ∧
    normalizeLoaded sampleConverted ≠ sampleConverted := by
  refine ⟨rfl, rfl, ?_⟩
  intro h
  have h2 := congrArg Config.chat h
  have h3 : (normalizeLoaded sampleConverted).chat ≠ sampleConverted.chat := by decide
  exact h3 h2

/-- C3 (amended): a legacy-schema file is detected, converted through
`Config::from`, the *converted* config is saved back to the file, and load
returns the converted config *after* the standard post-load fixups (server
sort, chat lowercasing) — which can differ from what was saved; contents
parsing as neither schema yield the `Json` error. -/
theorem C3_legacy_load (o : ConfigOld) (c : Config) (h : Config.fromOld o = some c) :
    File.load (.oldC o) = .ok ⟨normalizeLoaded c, File.save c, true⟩ ∧
    File.load .bad = .err .Json :=
  ⟨by simp [File.load, h], rfl⟩

/-- Witness for C3 (amended) at the concrete legacy config. -/
theorem C3_legacy_load_witness :
    Config.fromOld sampleOld = some sampleConverted ∧
    File.load (.oldC sampleOld)
      = .ok ⟨normalizeLoaded sampleConverted, File.save sampleConverted, true⟩ :=
  ⟨rfl, (C3_legacy_load sampleOld sampleConverted rfl).1⟩

/-- C4: when `config.chat` is `None`, each chat-dependent supervisor
operation returns the distinguishable `NoChat` error and leaves the state
unchanged. -/
theorem C4_no_chat (n : Noalbs) (h : n.state.config.chat = none) :
    (∀ a, n.contains_alias a = .error .NoChat) ∧
    (∀ a cmd, n.add_alias a cmd = (.error .NoChat, n)) ∧
    (∀ a, n.remove_alias a = (.error .NoChat, n)) ∧
    n.get_autostop = .error .NoChat ∧
    (∀ b, n.set_autostop b = (.error .NoChat, n)) ∧
    (∀ p, n.set_prefix_str p = (.error .NoChat, n)) := by
  refine ⟨?_, ?_, ?_, ?_, ?_, ?_⟩ <;>
    simp [Noalbs.contains_alias, Noalbs.add_alias, Noalbs.remove_alias,
      Noalbs.get_autostop, Noalbs.set_autostop, Noalbs.set_prefix_str, h]

/-- Witness for C4 at a concrete chatless supervisor. -/
theorem C4_no_chat_witness :
    sampleNoChat.state.config.chat = none ∧
    sampleNoChat.get_autostop = .error .NoChat ∧
    sampleNoChat.set_prefix_str ("?".toList) = (.error .NoChat, sampleNoChat) :=
  ⟨rfl, (C4_no_chat sampleNoChat rfl).2.2.2.1,
    (C4_no_chat sampleNoChat rfl).2.2.2.2.2 ("?".toList)⟩

/-- C5: `set_bitrate_switcher_state enabled` stores `enabled` in
`config.switcher.bitrate_switcher_enabled` and fires `notify_waiters` on the
switcher-enabled notifier exactly when `enabled` is true. -/
theorem C5_set_bitrate_switcher_state (n : Noalbs) (enabled : Bool) :
    (n.set_bitrate_switcher_state enabled).1.state.config.switcher.bitrate_switcher_enabled
        = enabled ∧
    ((n.set_bitrate_switcher_state enabled).2 = true ↔ enabled = true) := by
  cases enabled <;>
    simp [Noalbs.set_bitrate_switcher_state, Switcher.set_bitrate_switcher_enabled]

/-- C6: `update_trigger kind v` stores the value a subsequent
`get_trigger_by_type kind` reads back (equal to what it returned), leaves
every other trigger — `rtt_offline` included — unchanged, and changes nothing
of the state outside the triggers. -/
theorem C6_update_trigger_frame (n : Noalbs) (kind : TriggerType) (v : Nat) :
    (n.update_trigger kind v).2.get_trigger_by_type kind = (n.update_trigger kind v).1 ∧
    (∀ k, k ≠ kind →
      (n.update_trigger kind v).2.get_trigger_by_type k = n.get_trigger_by_type k) ∧
    (n.update_trigger kind v).2.state.config.switcher.triggers.rtt_offline
        = n.state.config.switcher.triggers.rtt_offline ∧
    restoreTriggers (n.update_trigger kind v).2 n.state.config.switcher.triggers = n := by
  refine ⟨?_, ?_, ?_, ?_⟩
  · cases kind <;> rfl
  · intro k hk
    cases kind <;> cases k <;> first | exact absurd rfl hk | rfl
  · cases kind <;> rfl
  · cases kind <;> rfl

/-- Witness for C6: updating `Low` leaves `Rtt` untouched at a concrete
state. -/
theorem C6_update_trigger_frame_witness :
    TriggerType.Rtt ≠ TriggerType.Low ∧
    (sampleNoalbs.update_trigger .Low 5).2.get_trigger_by_type .Rtt
      = sampleNoalbs.get_trigger_by_type .Rtt :=
  ⟨by decide, (C6_update_trigger_frame sampleNoalbs .Low 5).2.1 .Rtt (by decide)⟩

/-- C7 counterexample: dropping a supervisor that holds a broadcaster
connection aborts the switcher task but does *not* release the connection,
so the claim's drop path fails. -/
theorem C7_drop_keeps_connection :
    sampleNoalbs.dropped.switcher_handler = some ⟨true⟩ ∧
    sampleNoalbs.dropped.state.broadcasting_software.connection ≠ none := by
  refine ⟨rfl, ?_⟩
  decide

/-- C7 (amended): `stop` releases the broadcaster connection and aborts the
switcher task; dropping aborts the switcher task but leaves the state — the
held connection included — untouched. -/
theorem C7_stop_releases_drop_aborts (n : Noalbs)
    (hh : n.switcher_handler.isSome = true) :
    n.stop.state.broadcasting_software.connection = none ∧
    (∃ h', n.stop.switcher_handler = some h' ∧ h'.aborted = true) ∧
    (∃ h', n.dropped.switcher_handler = some h' ∧ h'.aborted = true) ∧
    n.dropped.state = n.state := by
  obtain ⟨h0, hh0⟩ := Option.isSome_iff_exists.mp hh
  refine ⟨rfl, ⟨⟨true⟩, ?_, rfl⟩, ⟨⟨true⟩, ?_, rfl⟩, rfl⟩
  · simp [Noalbs.stop, hh0]
  · simp [Noalbs.dropped, hh0]

/-- Witness for C7 (amended) at a concrete running supervisor. -/
theorem C7_stop_releases_drop_aborts_witness :
    sampleNoalbs.switcher_handler.isSome = true ∧
    sampleNoalbs.stop.state.broadcasting_software.connection = none ∧
    sampleNoalbs.dropped.state = sampleNoalbs.state :=
  ⟨rfl, (C7_stop_releases_drop_aborts sampleNoalbs rfl).1,
    (C7_stop_releases_drop_aborts sampleNoalbs rfl).2.2.2⟩

/-- C8: the default `Switcher` configuration has `retry_attempts = 5`
(`MAX_LOW_RETRY`). -/
theorem C8_default_retry_attempts :
    Switcher.default.retry_attempts = 5 ∧
    Switcher.default.retry_attempts = MAX_LOW_RETRY :=
  ⟨rfl, rfl⟩

/-- C9: `update_trigger` with value 0 stores and returns `none` (trigger
disabled); any value `v ≠ 0` stores and returns `some v`; and no kind can
touch `rtt_offline`. -/
theorem C9_update_trigger_value (n : Noalbs) (kind : TriggerType) (v : Nat) :
    ((n.update_trigger kind 0).1 = none ∧
      (n.update_trigger kind 0).2.get_trigger_by_type kind = none) ∧
    (v ≠ 0 →
      (n.update_trigger kind v).1 = some v ∧
      (n.update_trigger kind v).2.get_trigger_by_type kind = some v) ∧
    (n.update_trigger kind v).2.state.config.switcher.triggers.rtt_offline
      = n.state.config.switcher.triggers.rtt_offline := by
  refine ⟨?_, ?_, ?_⟩
  · cases kind <;> simp [Noalbs.update_trigger, Noalbs.get_trigger_by_type]
  · intro hv
    cases kind <;> simp [Noalbs.update_trigger, Noalbs.get_trigger_by_type, hv]
  · cases kind <;> rfl

/-- Witness for C9 at kind `Low`, value 7. -/
theorem C9_update_trigger_value_witness :
    (7 : Nat) ≠ 0 ∧
    ((sampleNoalbs.update_trigger .Low 7).1 = some 7 ∧
      (sampleNoalbs.update_trigger .Low 7).2.get_trigger_by_type .Low = some 7) :=
  ⟨by decide, (C9_update_trigger_value sampleNoalbs .Low 7).2.1 (by decide)⟩

/-- C10: after every successful load whose config has a chat section, the
chat username, every admin entry, and every string of every command's
`user_permissions` are ASCII-lowercase. -/
theorem C10_load_lowercases (f : FileContent) (r : LoadOutcome) (ch : Chat)
    (h : File.load f = .ok r) (hch : r.config.chat = some ch) :
    isAsciiLowercased ch.username ∧
    (∀ a ∈ ch.admins, isAsciiLowercased a) ∧
    (∀ kv ∈ ch.commands.getD [], ∀ l, kv.2.user_permissions = some l →
      ∀ u ∈ l, isAsciiLowercased u) := by
  obtain ⟨c, hcfg⟩ := load_ok_config f r h
  rw [hcfg, normalizeLoaded_eq] at hch
  cases hcc : c.chat with
  | none => rw [hcc] at hch; simp at hch
  | some ch0 =>
      rw [hcc] at hch
      simp only [Option.map_some'] at hch
      injection hch with hch2
      rw [← hch2]
      exact lowercaseChat_lowered ch0

/-- Witness for C10: the loaded `sampleConfig` (username `StreamerA`) has a
lowercased chat username. -/
theorem C10_load_lowercases_witness :
    File.load (.newC sampleConfig) = .ok sampleLoaded ∧
    sampleLoaded.config.chat = some sampleLoadedChat ∧
    isAsciiLowercased sampleLoadedChat.username :=
  ⟨rfl, rfl,
    (C10_load_lowercases (.newC sampleConfig) sampleLoaded sampleLoadedChat rfl rfl).1⟩

end NOALBS
